import Mathlib

/-!
# Verification of the sales-analysis dashboard core logic

Shallow embedding of the data transformations in `src/sales_analysis.py`:
the sidebar filter chain (`df_filtered`), the KPI scalars, the
groupby-and-sum aggregation pipelines, and the Pareto (80/20) analysis.

Modelling conventions:
* A pandas dataframe row becomes a `SalesRow`; the dataframe is a `List SalesRow`
  (the row order of the dataframe is the list order).
* Monetary amounts (`TOTAL_VENDA`) are exact rationals (`Rat`); the Python code
  uses IEEE floats, but every claim under study is about quantities (sums,
  cumulative shares) whose float computation follows the same algebra.
* Dimension attributes come from LEFT JOINs, so they are `Option String`
  (`none` models a SQL NULL / pandas NaN / None field).
* Dates are `Int` ordinals: the only operations the code performs on them are
  comparisons (`>=`, `<=`) and min/max, which the ordinal model preserves.
* `pandas.Series.mean()` on an empty series returns NaN; this is modelled by
  `Option Rat` with `none` for NaN.  Likewise Python's `ZeroDivisionError` in
  the insight line 431 (`len/len`) is modelled by `none`.
* `groupby` uses the pandas defaults `sort=True` (group keys ascending) and
  `dropna=True` (rows whose key is NaN form no group), which the definitions
  below reproduce.
-/

namespace SalesAnalysis

/-- One row of the consolidated dataframe produced by `load_sales_data`
(the big SELECT joining `fato_venda` with the five dimension tables, plus the
derived columns `MONTH_YEAR` and `QUARTER`).  Fact-table columns are always
present; dimension columns come from LEFT JOINs and may be NULL (`none`). -/
structure SalesRow where
  idTransacao : Int
  data : Int
  quantidadeVendida : Int
  totalVenda : Rat
  customerName : Option String
  customerCity : Option String
  customerState : Option String
  storeName : Option String
  storeCity : Option String
  storeState : Option String
  productName : Option String
  brand : Option String
  category : Option String
  salespersonName : Option String
  year : Option Int
  month : Option Int
  day : Option Int
  monthYear : String
  quarter : Int
  deriving DecidableEq

/-- Convenience constructor for concrete test rows: only the columns the
claims exercise are given; the remaining columns take fixed values. -/
def mkRow (pname cat city sp : Option String) (d q : Int) (tv : Rat) : SalesRow :=
  { idTransacao := 0, data := d, quantidadeVendida := q, totalVenda := tv,
    customerName := none, customerCity := none, customerState := none,
    storeName := none, storeCity := city, storeState := none,
    productName := pname, brand := none, category := cat,
    salespersonName := sp, year := none, month := none, day := none,
    monthYear := "", quarter := 0 }

/-! ## Filter Engine (`df_filtered`, lines 115-129)

Each sidebar multiselect yields a list of chosen values for one dimension;
`if store_filter:` keeps the dataframe unchanged when the selection is empty
and otherwise applies `Series.isin`, i.e. membership of the row's value in
the selection.  (`isin` matches NaN against NaN, hence selections are lists
of `Option String` and membership is plain equality of options.)  The date
predicate fires only when the `date_input` tuple has exactly two entries and
is inclusive on both ends. -/

/-- Lines 115-129: the sequential filter chain applied to the loaded data. -/
def df_filtered (rows : List SalesRow)
    (store_sel product_sel category_sel salesperson_sel : List (Option String))
    (date_range : List Int) : List SalesRow :=
  let df1 := if store_sel = [] then rows else
    rows.filter fun r => decide (r.storeCity ∈ store_sel)
  let df2 := if product_sel = [] then df1 else
    df1.filter fun r => decide (r.productName ∈ product_sel)
  let df3 := if category_sel = [] then df2 else
    df2.filter fun r => decide (r.category ∈ category_sel)
  let df4 := if salesperson_sel = [] then df3 else
    df3.filter fun r => decide (r.salespersonName ∈ salesperson_sel)
  match date_range with
  | [d0, d1] => df4.filter fun r => decide (d0 ≤ r.data) && decide (r.data ≤ d1)
  | _ => df4

/-! ## KPI summary (lines 140-143) -/

/-- Line 140: `df_filtered['TOTAL_VENDA'].sum()`. -/
def total_revenue (rows : List SalesRow) : Rat :=
  (rows.map (·.totalVenda)).sum

/-- Line 141: `len(df_filtered)`. -/
def total_transactions (rows : List SalesRow) : Nat :=
  rows.length

/-- Line 142: `df_filtered['TOTAL_VENDA'].mean()`.  pandas returns NaN on an
empty series, modelled as `none`. -/
def avg_ticket (rows : List SalesRow) : Option Rat :=
  if rows = [] then none else some (total_revenue rows / (rows.length : Rat))

/-- Line 143: `df_filtered['QUANTIDADE_VENDIDA'].sum()`. -/
def total_quantity (rows : List SalesRow) : Int :=
  (rows.map (·.quantidadeVendida)).sum

/-! ## Aggregation pipelines

`df.groupby(K)['TOTAL_VENDA'].sum()` produces one entry per distinct non-null
key (pandas default `dropna=True`), with keys in ascending order (pandas
default `sort=True`), each carrying the sum of `TOTAL_VENDA` over the rows
with that key. -/

/-- Distinct values of a list, keeping the first occurrence of each
(the order `pandas.unique` uses). -/
def uniqueFirst {α : Type} [BEq α] : List α → List α
  | [] => []
  | x :: xs => x :: (uniqueFirst xs).filter (fun y => y != x)

/-- The distinct non-null keys in ascending order, as `groupby(sort=True)`
produces them. -/
def sortedKeys (l : List String) : List String :=
  List.insertionSort (· ≤ ·) (uniqueFirst l)

/-- The rows of a group: those whose key equals `k`. -/
def rowsWithKey (key : SalesRow → Option String) (k : String)
    (rows : List SalesRow) : List SalesRow :=
  rows.filter fun r => decide (key r = some k)

/-- Embeds `df.groupby(K)['TOTAL_VENDA'].sum().reset_index()`: one
`(key, sum)` pair per distinct non-null key, keys ascending. -/
def groupbySum (key : SalesRow → Option String) (rows : List SalesRow) :
    List (String × Rat) :=
  (sortedKeys (rows.filterMap key)).map fun k => (k, total_revenue (rowsWithKey key k rows))

/-- Descending order on the summed amount (`sort_values('TOTAL_VENDA',
ascending=False)`), used by the ranked pipelines and the Pareto table. -/
def descBySnd (a b : String × Rat) : Prop := b.2 ≤ a.2

instance : DecidableRel descBySnd :=
  fun a b => inferInstanceAs (Decidable (b.2 ≤ a.2))

instance : IsTotal (String × Rat) descBySnd :=
  ⟨fun a b => le_total b.2 a.2⟩

instance : IsTrans (String × Rat) descBySnd :=
  ⟨fun _ _ _ h h2 => le_trans h2 h⟩

/-- Sort the aggregate pairs by descending summed amount (stable; pandas
leaves the order among exact ties unspecified). -/
def sortDescBySum (l : List (String × Rat)) : List (String × Rat) :=
  List.insertionSort descBySnd l

/-- Lines 171-172: top-10 products by revenue. -/
def product_sales (rows : List SalesRow) : List (String × Rat) :=
  (sortDescBySum (groupbySum (·.productName) rows)).take 10

/-- Line 198: revenue by category (no truncation, key order). -/
def category_sales (rows : List SalesRow) : List (String × Rat) :=
  groupbySum (·.category) rows

/-- Lines 269-275: top-10 salespersons by revenue. -/
def top_salespersons (rows : List SalesRow) : List (String × Rat) :=
  (sortDescBySum (groupbySum (·.salespersonName) rows)).take 10

/-- Lines 296-302: top-10 store cities by revenue. -/
def top_stores (rows : List SalesRow) : List (String × Rat) :=
  (sortDescBySum (groupbySum (·.storeCity) rows)).take 10

/-- Sum of the summed amounts of an aggregation pipeline's output. -/
def sumSnd (l : List (String × Rat)) : Rat :=
  (l.map Prod.snd).sum

/-! ## Pareto Analyzer (lines 390-431) -/

/-- One row of the `pareto_products` dataframe after lines 396-400 added the
cumulative columns and the rank. -/
structure ParetoRow where
  productName : String
  totalVenda : Rat
  cumulativeSales : Rat
  cumulativePercentage : Rat
  productNumber : Nat
  deriving DecidableEq

/-- Builds the Pareto rows in rank order: `acc` is the cumulative revenue of
the earlier ranks, `n` the next rank number, `total` the grand total used by
line 398's percentage. -/
def paretoRows (total : Rat) : Rat → Nat → List (String × Rat) → List ParetoRow
  | _, _, [] => []
  | acc, n, p :: ps =>
    { productName := p.1, totalVenda := p.2,
      cumulativeSales := acc + p.2,
      cumulativePercentage := (acc + p.2) / total * 100,
      productNumber := n } :: paretoRows total (acc + p.2) (n + 1) ps

/-- Lines 390-400: revenue per product, sorted descending, with cumulative
sum, cumulative percentage of the grand total, and rank 1..N. -/
def pareto_products (rows : List SalesRow) : List ParetoRow :=
  let ps := sortDescBySum (groupbySum (·.productName) rows)
  paretoRows ((ps.map Prod.snd).sum) 0 1 ps

/-- Line 430: the Pareto rows whose cumulative percentage is at most 80. -/
def products_80 (rows : List SalesRow) : List ParetoRow :=
  (pareto_products rows).filter fun pr => decide (pr.cumulativePercentage ≤ 80)

/-- Line 431's insight ratio `len(products_80)/len(pareto_products)*100`.
Python raises `ZeroDivisionError` when `pareto_products` is empty; the raised
exception is modelled as `none`. -/
def insight_share (rows : List SalesRow) : Option Rat :=
  if pareto_products rows = [] then none
  else some (((products_80 rows).length : Rat) / ((pareto_products rows).length : Rat) * 100)

/-! ## Date bounds (lines 102-103): `df_sales['DATA'].min()` / `.max()`. -/

/-- Minimum of a list of dates (`none` on the empty list, as pandas `min`
yields NaT there). -/
def minInt : List Int → Option Int
  | [] => none
  | d :: ds =>
    match minInt ds with
    | none => some d
    | some m => some (min d m)

/-- Maximum of a list of dates (`none` on the empty list). -/
def maxInt : List Int → Option Int
  | [] => none
  | d :: ds =>
    match maxInt ds with
    | none => some d
    | some m => some (max d m)

/-- Line 102: `df_sales['DATA'].min()`. -/
def dataMin (rows : List SalesRow) : Option Int :=
  minInt (rows.map (·.data))

/-- Line 103: `df_sales['DATA'].max()`. -/
def dataMax (rows : List SalesRow) : Option Int :=
  maxInt (rows.map (·.data))

/-- The full set of distinct values of one dimension column, as
`df_sales[col].unique()` produces for the multiselect options. -/
def uniqueVals (field : SalesRow → Option String) (rows : List SalesRow) :
    List (Option String) :=
  uniqueFirst (rows.map field)

/-! ## Concrete datasets used by the scenario claims -/

/-- Four transactions over three products with per-product sums
P1 = 400 + 200 = 600, P2 = 300, P3 = 100 (grand total 1000). -/
def c1Rows : List SalesRow :=
  [ mkRow (some "P1") (some "Electronics") (some "Rio") (some "Ana") 10 1 400,
    mkRow (some "P2") (some "Electronics") (some "Rio") (some "Bia") 11 1 300,
    mkRow (some "P1") (some "Clothing") (some "Sao Paulo") (some "Ana") 12 1 200,
    mkRow (some "P3") (some "Clothing") (some "Rio") (some "Caio") 13 1 100 ]

/-! ## Basic lemmas about the embedded operations -/

theorem total_revenue_nil : total_revenue [] = 0 := rfl

theorem total_revenue_cons (r : SalesRow) (l : List SalesRow) :
    total_revenue (r :: l) = r.totalVenda + total_revenue l := by
  simp [total_revenue]

theorem mem_ite_filter {f : SalesRow → Option String} {sel : List (Option String)}
    {l : List SalesRow} {r : SalesRow} :
    (r ∈ if sel = [] then l else l.filter fun x => decide (f x ∈ sel)) ↔
      r ∈ l ∧ (sel ≠ [] → f r ∈ sel) := by
  split
  · simp_all
  · simp_all [List.mem_filter]

theorem ite_filter_eq_self {f : SalesRow → Option String} {sel : List (Option String)}
    {l : List SalesRow} (h : ∀ r ∈ l, f r ∈ sel) :
    (if sel = [] then l else l.filter fun x => decide (f x ∈ sel)) = l := by
  split
  · rfl
  · exact List.filter_eq_self.mpr fun r hr => by simpa using h r hr

/-! ## Claim theorems: Filter Engine -/

/-- C3 — the Filter Engine keeps exactly the rows satisfying every active
predicate: a row of the input is kept iff each categorical dimension with a
non-empty selection contains the row's value, and, when both date bounds are
supplied (`len(date_range) == 2`), the row's date lies in the inclusive
interval; empty selections impose no constraint. -/
theorem mem_df_filtered_iff (rows : List SalesRow)
    (store_sel product_sel category_sel salesperson_sel : List (Option String))
    (date_range : List Int) (r : SalesRow) :
    r ∈ df_filtered rows store_sel product_sel category_sel salesperson_sel date_range ↔
      r ∈ rows ∧
      (store_sel ≠ [] → r.storeCity ∈ store_sel) ∧
      (product_sel ≠ [] → r.productName ∈ product_sel) ∧
      (category_sel ≠ [] → r.category ∈ category_sel) ∧
      (salesperson_sel ≠ [] → r.salespersonName ∈ salesperson_sel) ∧
      (∀ d0 d1, date_range = [d0, d1] → d0 ≤ r.data ∧ r.data ≤ d1) := by
  unfold df_filtered
  rcases date_range with _ | ⟨d0, _ | ⟨d1, _ | ⟨d2, ds⟩⟩⟩ <;>
    simp [List.mem_filter, mem_ite_filter, and_assoc]

/-- C8 — with both date bounds supplied, a start strictly greater than the
end makes the inclusive interval empty, so the Filter Engine returns the
empty dataset (and, being a total function of its input, raises no error). -/
theorem inverted_date_range_empty (rows : List SalesRow) (d0 d1 : Int)
    (h : d1 < d0) :
    df_filtered rows [] [] [] [] [d0, d1] = [] := by
  unfold df_filtered
  simp only [if_pos rfl]
  refine List.filter_eq_nil_iff.mpr fun r _ => ?_
  simp only [Bool.and_eq_true, decide_eq_true_eq, not_and]
  intro h0 h1
  omega

/-- Two transactions used to witness the inverted-date-range behaviour. -/
def c8Rows : List SalesRow :=
  [ mkRow (some "P1") (some "Electronics") (some "Rio") (some "Ana") 4 1 50,
    mkRow (some "P2") (some "Clothing") (some "Rio") (some "Bia") 4 2 70 ]

theorem inverted_date_range_empty_witness :
    df_filtered c8Rows [] [] [] [] [5, 3] = [] :=
  inverted_date_range_empty c8Rows 5 3 (by decide)

theorem minInt_eq_none {l : List Int} : minInt l = none ↔ l = [] := by
  cases l with
  | nil => simp [minInt]
  | cons d ds =>
    simp only [minInt]
    cases minInt ds <;> simp

theorem maxInt_eq_none {l : List Int} : maxInt l = none ↔ l = [] := by
  cases l with
  | nil => simp [maxInt]
  | cons d ds =>
    simp only [maxInt]
    cases maxInt ds <;> simp

theorem minInt_le {l : List Int} {m : Int} (h : minInt l = some m) :
    ∀ d ∈ l, m ≤ d := by
  induction l generalizing m with
  | nil => simp [minInt] at h
  | cons d ds ih =>
    intro x hx
    rw [minInt] at h
    rcases hds : minInt ds with _ | m'
    · rw [hds] at h
      obtain rfl : d = m := by simpa using h
      rcases List.mem_cons.mp hx with rfl | hx
      · exact le_refl _
      · rw [minInt_eq_none.mp hds] at hx
        simp at hx
    · rw [hds] at h
      obtain rfl : min d m' = m := by simpa using h
      rcases List.mem_cons.mp hx with rfl | hx
      · exact min_le_left _ _
      · exact le_trans (min_le_right _ _) (ih hds x hx)

theorem le_maxInt {l : List Int} {m : Int} (h : maxInt l = some m) :
    ∀ d ∈ l, d ≤ m := by
  induction l generalizing m with
  | nil => simp [maxInt] at h
  | cons d ds ih =>
    intro x hx
    rw [maxInt] at h
    rcases hds : maxInt ds with _ | m'
    · rw [hds] at h
      obtain rfl : d = m := by simpa using h
      rcases List.mem_cons.mp hx with rfl | hx
      · exact le_refl _
      · rw [maxInt_eq_none.mp hds] at hx
        simp at hx
    · rw [hds] at h
      obtain rfl : max d m' = m := by simpa using h
      rcases List.mem_cons.mp hx with rfl | hx
      · exact le_max_left _ _
      · exact le_trans (ih hds x hx) (le_max_right _ _)

theorem mem_uniqueFirst {α : Type} [BEq α] [LawfulBEq α] {l : List α} {x : α} :
    x ∈ uniqueFirst l ↔ x ∈ l := by
  induction l with
  | nil => simp [uniqueFirst]
  | cons a as ih =>
    simp only [uniqueFirst, List.mem_cons, List.mem_filter, bne_iff_ne, ne_eq,
      decide_not, Bool.not_eq_eq_eq_not, Bool.not_false, decide_eq_true_eq, ih]
    constructor
    · rintro (rfl | ⟨hx, _⟩)
      · exact .inl rfl
      · exact .inr hx
    · rintro (rfl | hx)
      · exact .inl rfl
      · by_cases hxa : x = a
        · exact .inl hxa
        · exact .inr ⟨hx, hxa⟩

/-- C9 — with every categorical selection empty and the date range equal to
the dataset's full `[min, max]` interval, the Filter Engine is the identity
(same rows, same order); and selecting, for every dimension, that dimension's
full set of distinct values also returns the full dataset. -/
theorem trivial_filters_identity (rows : List SalesRow) (dmin dmax : Int)
    (hmin : dataMin rows = some dmin) (hmax : dataMax rows = some dmax) :
    df_filtered rows [] [] [] [] [dmin, dmax] = rows ∧
    df_filtered rows (uniqueVals (·.storeCity) rows) (uniqueVals (·.productName) rows)
      (uniqueVals (·.category) rows) (uniqueVals (·.salespersonName) rows)
      [dmin, dmax] = rows := by
  have hdate : ∀ r ∈ rows, (decide (dmin ≤ r.data) && decide (r.data ≤ dmax)) = true := by
    intro r hr
    have h1 := minInt_le hmin r.data (List.mem_map_of_mem _ hr)
    have h2 := le_maxInt hmax r.data (List.mem_map_of_mem _ hr)
    simp [h1, h2]
  have hfield : ∀ f : SalesRow → Option String, ∀ r ∈ rows, f r ∈ uniqueVals f rows := by
    intro f r hr
    exact mem_uniqueFirst.mpr (List.mem_map_of_mem f hr)
  constructor
  · unfold df_filtered
    simp only [if_pos rfl]
    exact List.filter_eq_self.mpr hdate
  · have h1 := ite_filter_eq_self (hfield (·.storeCity))
    have h2 := ite_filter_eq_self (hfield (·.productName))
    have h3 := ite_filter_eq_self (hfield (·.category))
    have h4 := ite_filter_eq_self (hfield (·.salespersonName))
    simp only [df_filtered, h1, h2, h3, h4]
    exact List.filter_eq_self.mpr hdate

/-- Three transactions with dates 7, 9, 8 used to witness the identity
filters. -/
def c9Rows : List SalesRow :=
  [ mkRow (some "P1") (some "Electronics") (some "Rio") (some "Ana") 7 1 20,
    mkRow (some "P2") (some "Clothing") (some "Sao Paulo") (some "Bia") 9 1 30,
    mkRow (some "P1") (some "Clothing") (some "Rio") (some "Ana") 8 2 25 ]

theorem trivial_filters_identity_witness :
    df_filtered c9Rows [] [] [] [] [7, 9] = c9Rows ∧
    df_filtered c9Rows (uniqueVals (·.storeCity) c9Rows) (uniqueVals (·.productName) c9Rows)
      (uniqueVals (·.category) c9Rows) (uniqueVals (·.salespersonName) c9Rows)
      [7, 9] = c9Rows :=
  trivial_filters_identity c9Rows 7 9 (by rfl) (by rfl)

/-! ## Claim theorems: KPIs and the empty dataset -/

/-- C2 — on the empty filtered dataset the KPI revenue is 0, the transaction
count is 0 and the Pareto Row sequence is empty, as the claim states; but the
average ticket is pandas' NaN (`none`), not a defined non-NaN fallback, and
line 431's insight ratio divides by `len(pareto_products) = 0`, which raises
`ZeroDivisionError` in Python (modelled as `none`) — contradicting the
claim's error-handling requirement. -/
theorem empty_dataset_kpis_and_pareto :
    total_revenue [] = 0 ∧
    total_transactions [] = 0 ∧
    avg_ticket [] = none ∧
    pareto_products [] = [] ∧
    insight_share [] = none := by
  refine ⟨rfl, rfl, rfl, rfl, ?_⟩
  simp [insight_share]
  rfl

/-! ## Claim theorems: the three-product Pareto scenario -/

/-- C1, counterexample — on the 600/300/100 scenario the code's count-at-80
(line 430: rows with cumulative percentage `<= 80`) is 1, not the 2 the claim
states: the cumulative percentages are [60, 90, 100] and only 60 is ≤ 80. -/
theorem pareto_scenario_count_counterexample :
    groupbySum (·.productName) c1Rows = [("P1", 600), ("P2", 300), ("P3", 100)] ∧
    (products_80 c1Rows).length ≠ 2 := by
  constructor
  · simp +decide [c1Rows, mkRow, groupbySum, sortedKeys, uniqueFirst, rowsWithKey,
      total_revenue, List.insertionSort, List.orderedInsert, List.filter_cons]
    norm_num
  · have : (products_80 c1Rows).length = 1 := by
      simp +decide [c1Rows, mkRow, pareto_products, products_80, paretoRows, groupbySum,
        sortedKeys, uniqueFirst, rowsWithKey, total_revenue, sortDescBySum,
        List.insertionSort, List.orderedInsert, descBySnd, List.filter_cons]
      norm_num [paretoRows, List.filter_cons]
    omega

/-- C1, amended — the scenario input yields rank order [P1, P2, P3] with
cumulative percentages [60, 90, 100], and the count-at-80 reported by
line 430 equals 1 (only rank 1, at 60 %, has cumulative percentage ≤ 80). -/
theorem pareto_scenario_three_products :
    ((pareto_products c1Rows).map fun pr => (pr.productName, pr.productNumber)) =
      [("P1", 1), ("P2", 2), ("P3", 3)] ∧
    ((pareto_products c1Rows).map fun pr => pr.cumulativePercentage) = [60, 90, 100] ∧
    (products_80 c1Rows).length = 1 := by
  simp +decide [c1Rows, mkRow, pareto_products, products_80, paretoRows, groupbySum,
    sortedKeys, uniqueFirst, rowsWithKey, total_revenue, sortDescBySum,
    List.insertionSort, List.orderedInsert, descBySnd, List.filter_cons]
  norm_num [paretoRows, List.filter_cons]

/-! ## Claim theorems: ranked pipelines -/

/-- C6 — each ranked pipeline (top products, top salespersons, top store
cities) returns at most 10 rows, ordered by non-increasing summed amount
(ties permitted). -/
theorem ranked_pipelines_top10_sorted (rows : List SalesRow) :
    ((product_sales rows).length ≤ 10 ∧
      (product_sales rows).Pairwise fun a b => b.2 ≤ a.2) ∧
    ((top_salespersons rows).length ≤ 10 ∧
      (top_salespersons rows).Pairwise fun a b => b.2 ≤ a.2) ∧
    ((top_stores rows).length ≤ 10 ∧
      (top_stores rows).Pairwise fun a b => b.2 ≤ a.2) := by
  have key : ∀ l : List (String × Rat),
      ((sortDescBySum l).take 10).length ≤ 10 ∧
        ((sortDescBySum l).take 10).Pairwise fun a b => b.2 ≤ a.2 := by
    intro l
    refine ⟨List.length_take_le _ _, ?_⟩
    have hs : (sortDescBySum l).Pairwise descBySnd :=
      List.sorted_insertionSort descBySnd l
    exact (hs.sublist (List.take_sublist _ _)).imp fun h => h
  exact ⟨key _, key _, key _⟩

/-! ## Claim theorems: null dimension keys in aggregation -/

theorem filterMap_filter_isSome (key : SalesRow → Option String) (rows : List SalesRow) :
    (rows.filter fun r => (key r).isSome).filterMap key = rows.filterMap key := by
  induction rows with
  | nil => rfl
  | cons r rest ih =>
    rcases hk : key r with _ | v <;>
      simp [List.filter_cons, List.filterMap_cons, hk, ih]

theorem rowsWithKey_filter_isSome (key : SalesRow → Option String) (k : String)
    (rows : List SalesRow) :
    rowsWithKey key k (rows.filter fun r => (key r).isSome) = rowsWithKey key k rows := by
  induction rows with
  | nil => rfl
  | cons r rest ih =>
    rcases hk : key r with _ | v <;>
      simp [rowsWithKey, List.filter_cons, hk] at ih ⊢ <;>
      simp [ih]

theorem groupbySum_drop_null (key : SalesRow → Option String) (rows : List SalesRow) :
    groupbySum key (rows.filter fun r => (key r).isSome) = groupbySum key rows := by
  simp only [groupbySum, filterMap_filter_isSome, rowsWithKey_filter_isSome]

theorem mem_sortedKeys {l : List String} {k : String} :
    k ∈ sortedKeys l ↔ k ∈ l := by
  unfold sortedKeys
  rw [(List.perm_insertionSort _ _).mem_iff]
  exact mem_uniqueFirst

/-- A single transaction whose product dimension resolved but whose category
is NULL (a left-join miss on `dim_produto.CATEGORIA`). -/
def c7Rows : List SalesRow :=
  [ mkRow (some "P") none (some "Rio") (some "Ana") 1 1 5 ]

/-- C7, counterexample — the by-category aggregation of a dataset whose only
row has a NULL category is empty: the revenue-5 row forms no group at all
(pandas `groupby` drops NaN keys), so a null category does NOT form its own
group as the claim states. -/
theorem null_category_forms_no_group :
    category_sales c7Rows = [] ∧ c7Rows ≠ [] ∧ total_revenue c7Rows = 5 := by
  refine ⟨rfl, by simp [c7Rows], ?_⟩
  norm_num [c7Rows, mkRow, total_revenue]

/-- C7, amended — aggregation over rows with null categories raises no error
(the pipeline is a total function); rows whose category is NULL are silently
dropped: the by-category output is the same as on the dataset restricted to
rows with a non-null category, and every group key of the output is the
category of some row (so there is never a group for the null category). -/
theorem category_sales_ignores_null_rows (rows : List SalesRow) :
    category_sales (rows.filter fun r => r.category.isSome) = category_sales rows ∧
    ∀ pr ∈ category_sales rows, ∃ r ∈ rows, r.category = some pr.1 := by
  refine ⟨groupbySum_drop_null _ _, ?_⟩
  intro pr hpr
  obtain ⟨k, hk, rfl⟩ := List.mem_map.mp hpr
  obtain ⟨r, hr, hrk⟩ := List.mem_filterMap.mp (mem_sortedKeys.mp hk)
  exact ⟨r, hr, hrk⟩

/-! ## Claim theorems: grouped totals partition the revenue -/

theorem sum_ite_single {ks : List String} {k0 : String} (hnd : ks.Nodup)
    (hk : k0 ∈ ks) (v : Rat) :
    (ks.map fun k => if k = k0 then v else 0).sum = v := by
  induction ks with
  | nil => simp at hk
  | cons a as ih =>
    rcases List.nodup_cons.mp hnd with ⟨hna, hnas⟩
    rcases List.mem_cons.mp hk with rfl | hk0
    · have hz : (as.map fun k => if k = k0 then v else 0).sum = 0 := by
        refine List.sum_eq_zero fun x hx => ?_
        obtain ⟨k, hkas, rfl⟩ := List.mem_map.mp hx
        have : k ≠ k0 := fun h => hna (h ▸ hkas)
        simp [this]
      simp [hz]
    · have hz : ¬ a = k0 := fun h => hna (h ▸ hk0)
      simp [hz, ih hnas hk0]

theorem sum_grouped_partition (key : SalesRow → Option String) (ks : List String)
    (rows : List SalesRow) (hnd : ks.Nodup)
    (hcov : ∀ r ∈ rows, ∃ k ∈ ks, key r = some k) :
    (ks.map fun k => total_revenue (rowsWithKey key k rows)).sum = total_revenue rows := by
  induction rows with
  | nil =>
    rw [total_revenue_nil]
    refine List.sum_eq_zero fun x hx => ?_
    obtain ⟨k, _, rfl⟩ := List.mem_map.mp hx
    rfl
  | cons r rest ih =>
    obtain ⟨k0, hk0, hrk0⟩ := hcov r (List.mem_cons_self r rest)
    have hsplit : ∀ k, total_revenue (rowsWithKey key k (r :: rest)) =
        (if k = k0 then r.totalVenda else 0) + total_revenue (rowsWithKey key k rest) := by
      intro k
      by_cases hkk : k = k0
      · subst hkk
        simp [rowsWithKey, List.filter_cons, hrk0, total_revenue_cons]
      · have : ¬ key r = some k := by
          rw [hrk0]
          simpa using fun h => hkk h.symm
        simp [rowsWithKey, List.filter_cons, this, hkk]
    calc (ks.map fun k => total_revenue (rowsWithKey key k (r :: rest))).sum
        = (ks.map fun k =>
            (if k = k0 then r.totalVenda else 0) + total_revenue (rowsWithKey key k rest)).sum := by
          rw [List.map_congr_left fun k _ => hsplit k]
      _ = (ks.map fun k => if k = k0 then r.totalVenda else 0).sum +
            (ks.map fun k => total_revenue (rowsWithKey key k rest)).sum := by
          rw [← List.sum_map_add]
      _ = r.totalVenda + total_revenue rest := by
          rw [sum_ite_single hnd hk0, ih fun x hx => hcov x (List.mem_cons_of_mem r hx)]
      _ = total_revenue (r :: rest) := (total_revenue_cons r rest).symm

theorem nodup_uniqueFirst {α : Type} [BEq α] [LawfulBEq α] (l : List α) :
    (uniqueFirst l).Nodup := by
  induction l with
  | nil => simp [uniqueFirst]
  | cons a as ih =>
    rw [uniqueFirst, List.nodup_cons]
    refine ⟨fun h => ?_, ih.filter _⟩
    have := (List.mem_filter.mp h).2
    simp at this

theorem nodup_sortedKeys (l : List String) : (sortedKeys l).Nodup := by
  unfold sortedKeys
  exact ((List.perm_insertionSort _ _).nodup_iff).mpr (nodup_uniqueFirst l)

theorem groupbySum_sum (key : SalesRow → Option String) (rows : List SalesRow)
    (h : ∀ r ∈ rows, (key r).isSome) :
    sumSnd (groupbySum key rows) = total_revenue rows := by
  unfold groupbySum sumSnd
  rw [List.map_map]
  have : ((fun p : String × Rat => p.2) ∘ fun k => (k, total_revenue (rowsWithKey key k rows)))
      = fun k => total_revenue (rowsWithKey key k rows) := rfl
  rw [this]
  refine sum_grouped_partition key _ rows (nodup_sortedKeys _) fun r hr => ?_
  rcases hk : key r with _ | v
  · exact absurd (hk ▸ h r hr) (by simp)
  · exact ⟨v, mem_sortedKeys.mpr (List.mem_filterMap.mpr ⟨r, hr, hk⟩), rfl⟩

/-- A single transaction with a NULL category but a resolved product name. -/
def c5Rows : List SalesRow :=
  [ mkRow (some "P") none (some "Rio") (some "Ana") 1 1 100 ]

/-- C5, counterexample — on a dataset whose only row has a NULL category, the
by-category totals sum to 0 while the by-product totals and the KPI revenue
are 100: the claimed three-way equality fails (pandas `groupby` drops the
NULL-keyed row from the by-category output). -/
theorem grouped_totals_counterexample :
    ¬ (sumSnd (category_sales c5Rows) = total_revenue c5Rows ∧
        sumSnd (groupbySum (·.productName) c5Rows) = total_revenue c5Rows) := by
  rintro ⟨h, -⟩
  rw [show category_sales c5Rows = [] from rfl] at h
  rw [show sumSnd [] = 0 from rfl] at h
  have : total_revenue c5Rows = 100 := by norm_num [c5Rows, mkRow, total_revenue]
  rw [this] at h
  norm_num at h

/-- C5, amended — when every row of the filtered dataset has a non-null
category and a non-null product name, the by-category totals, the by-product
totals and the KPI total revenue all coincide. -/
theorem grouped_totals_eq_revenue (rows : List SalesRow)
    (hc : ∀ r ∈ rows, r.category.isSome)
    (hp : ∀ r ∈ rows, r.productName.isSome) :
    sumSnd (category_sales rows) = total_revenue rows ∧
    sumSnd (groupbySum (·.productName) rows) = total_revenue rows := by
  exact ⟨groupbySum_sum _ rows hc, groupbySum_sum _ rows hp⟩

/-- All-dimensions-resolved dataset used to witness the partition identity. -/
def c5GoodRows : List SalesRow :=
  [ mkRow (some "P1") (some "Electronics") (some "Rio") (some "Ana") 1 1 40,
    mkRow (some "P2") (some "Clothing") (some "Rio") (some "Bia") 2 1 60,
    mkRow (some "P1") (some "Electronics") (some "Sao Paulo") (some "Ana") 3 1 10 ]

theorem grouped_totals_eq_revenue_witness :
    sumSnd (category_sales c5GoodRows) = total_revenue c5GoodRows ∧
    sumSnd (groupbySum (·.productName) c5GoodRows) = total_revenue c5GoodRows :=
  grouped_totals_eq_revenue c5GoodRows (by simp [c5GoodRows, mkRow])
    (by simp [c5GoodRows, mkRow])

/-! ## Claim theorems: Pareto cumulative sequence -/

/-- The running cumulative sums (line 396's `cumsum`) starting from `acc`. -/
def cumList (acc : Rat) : List (String × Rat) → List Rat
  | [] => []
  | p :: ps => (acc + p.2) :: cumList (acc + p.2) ps

theorem paretoRows_map_pct (total acc : Rat) (n : Nat) (ps : List (String × Rat)) :
    (paretoRows total acc n ps).map (·.cumulativePercentage) =
      (cumList acc ps).map fun c => c / total * 100 := by
  induction ps generalizing acc n with
  | nil => rfl
  | cons p ps ih => simp [paretoRows, cumList, ih]

theorem le_mem_cumList {acc : Rat} {ps : List (String × Rat)}
    (hv : ∀ p ∈ ps, 0 ≤ p.2) : ∀ c ∈ cumList acc ps, acc ≤ c := by
  induction ps generalizing acc with
  | nil => simp [cumList]
  | cons p ps ih =>
    intro c hc
    have hstep : acc ≤ acc + p.2 :=
      le_add_of_nonneg_right (hv p (List.mem_cons_self p ps))
    rcases List.mem_cons.mp hc with rfl | hc
    · exact hstep
    · exact le_trans hstep
        (ih (fun q hq => hv q (List.mem_cons_of_mem p hq)) c hc)

theorem cumList_pairwise {acc : Rat} {ps : List (String × Rat)}
    (hv : ∀ p ∈ ps, 0 ≤ p.2) : (cumList acc ps).Pairwise (· ≤ ·) := by
  induction ps generalizing acc with
  | nil => simp [cumList]
  | cons p ps ih =>
    have hv' : ∀ q ∈ ps, 0 ≤ q.2 := fun q hq => hv q (List.mem_cons_of_mem p hq)
    rw [cumList, List.pairwise_cons]
    exact ⟨fun c hc => le_mem_cumList hv' c hc, ih hv'⟩

theorem cumList_getLast {acc : Rat} {ps : List (String × Rat)} (hne : ps ≠ []) :
    (cumList acc ps).getLast? = some (acc + (ps.map Prod.snd).sum) := by
  induction ps generalizing acc with
  | nil => exact absurd rfl hne
  | cons p ps ih =>
    rcases ps with _ | ⟨q, qs⟩
    · simp [cumList]
    · have h2 : cumList acc (p :: q :: qs) = (acc + p.2) :: cumList (acc + p.2) (q :: qs) := rfl
      have h3 : cumList (acc + p.2) (q :: qs) =
          (acc + p.2 + q.2) :: cumList (acc + p.2 + q.2) qs := rfl
      rw [h2, h3, List.getLast?_cons_cons, ← h3, ih (by simp)]
      simp [add_assoc]

theorem pareto_products_eq (rows : List SalesRow) :
    pareto_products rows =
      paretoRows (((sortDescBySum (groupbySum (·.productName) rows)).map Prod.snd).sum) 0 1
        (sortDescBySum (groupbySum (·.productName) rows)) := rfl

theorem mem_sortDescBySum {l : List (String × Rat)} {p : String × Rat} :
    p ∈ sortDescBySum l ↔ p ∈ l :=
  (List.perm_insertionSort descBySnd l).mem_iff

theorem pareto_pcts_pairwise (rows : List SalesRow)
    (hpos : ∀ p ∈ groupbySum (·.productName) rows, 0 ≤ p.2) :
    ((pareto_products rows).map (·.cumulativePercentage)).Pairwise (· ≤ ·) := by
  rw [pareto_products_eq, paretoRows_map_pct]
  have hv : ∀ p ∈ sortDescBySum (groupbySum (·.productName) rows), 0 ≤ p.2 :=
    fun p hp => hpos p (mem_sortDescBySum.mp hp)
  have htot : (0 : Rat) ≤
      ((sortDescBySum (groupbySum (·.productName) rows)).map Prod.snd).sum :=
    List.sum_nonneg fun x hx => by
      obtain ⟨p, hp, rfl⟩ := List.mem_map.mp hx
      exact hv p hp
  refine List.Pairwise.map _ (fun a b hab => ?_) (cumList_pairwise hv)
  exact mul_le_mul_of_nonneg_right (div_le_div_of_nonneg_right hab htot) (by norm_num)

/-- A non-empty dataset whose only row has a NULL product name
(a left-join miss on `dim_produto`). -/
def c4Rows : List SalesRow :=
  [ mkRow none none (some "Rio") (some "Ana") 1 1 5 ]

/-- C4, counterexample — `c4Rows` is a non-empty dataset on which every
product's summed revenue is (vacuously) positive, yet the Pareto cumulative
percentage sequence is empty, so it has no last element equal to 100: pandas
`groupby` drops the NULL product key and `pareto_products` has no rows. -/
theorem pareto_last_counterexample :
    c4Rows ≠ [] ∧
    (∀ p ∈ groupbySum (·.productName) c4Rows, 0 < p.2) ∧
    ¬ ∃ q, ((pareto_products c4Rows).map (·.cumulativePercentage)).getLast? = some q ∧
        |q - 100| ≤ 1 / 1000000 := by
  refine ⟨by simp [c4Rows], ?_, ?_⟩
  · intro p hp
    rw [show groupbySum (·.productName) c4Rows = [] from rfl] at hp
    simp at hp
  · rintro ⟨q, hq, -⟩
    rw [show pareto_products c4Rows = [] from rfl] at hq
    simp at hq

/-- C4, amended — for every filtered dataset whose product-grouped table is
non-empty (some row has a non-null product name) and in which every product's
summed revenue is positive, the cumulative percentage sequence is
monotonically non-decreasing and its last element is 100 up to 1e-6 (here it
is exactly 100, the rationals being exact). -/
theorem pareto_cumulative_mono_last_100 (rows : List SalesRow)
    (hne : groupbySum (·.productName) rows ≠ [])
    (hpos : ∀ p ∈ groupbySum (·.productName) rows, 0 < p.2) :
    ((pareto_products rows).map (·.cumulativePercentage)).Pairwise (· ≤ ·) ∧
    ∃ q, ((pareto_products rows).map (·.cumulativePercentage)).getLast? = some q ∧
      |q - 100| ≤ 1 / 1000000 := by
  have hv : ∀ p ∈ sortDescBySum (groupbySum (·.productName) rows), 0 < p.2 :=
    fun p hp => hpos p (mem_sortDescBySum.mp hp)
  have hsne : sortDescBySum (groupbySum (·.productName) rows) ≠ [] := by
    intro h
    exact hne (List.Perm.eq_nil (h ▸ (List.perm_insertionSort descBySnd _).symm))
  have htot : (0 : Rat) <
      ((sortDescBySum (groupbySum (·.productName) rows)).map Prod.snd).sum := by
    refine List.sum_pos _ (fun x hx => ?_) (by simpa using hsne)
    obtain ⟨p, hp, rfl⟩ := List.mem_map.mp hx
    exact hv p hp
  refine ⟨pareto_pcts_pairwise rows fun p hp => le_of_lt (hpos p hp), ?_⟩
  refine ⟨100, ?_, by norm_num⟩
  rw [pareto_products_eq, paretoRows_map_pct, List.getLast?_map, cumList_getLast hsne]
  rw [Option.map_some']
  congr 1
  rw [zero_add, div_self (ne_of_gt htot), one_mul]

theorem pareto_cumulative_mono_last_100_witness :
    ((pareto_products c1Rows).map (·.cumulativePercentage)).Pairwise (· ≤ ·) ∧
    ∃ q, ((pareto_products c1Rows).map (·.cumulativePercentage)).getLast? = some q ∧
      |q - 100| ≤ 1 / 1000000 :=
  pareto_cumulative_mono_last_100 c1Rows
    (by
      simp +decide [c1Rows, mkRow, groupbySum, sortedKeys, uniqueFirst, rowsWithKey,
        total_revenue, List.insertionSort, List.orderedInsert, List.filter_cons])
    (by
      simp +decide [c1Rows, mkRow, groupbySum, sortedKeys, uniqueFirst, rowsWithKey,
        total_revenue, List.insertionSort, List.orderedInsert, List.filter_cons]
      norm_num)

/-! ## Claim theorems: the 80 % cutoff is a rank cutoff -/

theorem filter_le80_eq_takeWhile {l : List ParetoRow}
    (h : l.Pairwise fun a b => a.cumulativePercentage ≤ b.cumulativePercentage) :
    l.filter (fun pr => decide (pr.cumulativePercentage ≤ 80)) =
      l.takeWhile (fun pr => decide (pr.cumulativePercentage ≤ 80)) := by
  induction l with
  | nil => rfl
  | cons a l ih =>
    rcases List.pairwise_cons.mp h with ⟨ha, hl⟩
    by_cases hc : a.cumulativePercentage ≤ 80
    · simp [List.filter_cons, List.takeWhile_cons, hc, ih hl]
    · have hrest : l.filter (fun pr => decide (pr.cumulativePercentage ≤ 80)) = [] := by
        refine List.filter_eq_nil_iff.mpr fun b hb => ?_
        simp only [decide_eq_true_eq]
        intro hb80
        exact hc (le_trans (ha b hb) hb80)
      simp [List.filter_cons, List.takeWhile_cons, hc, hrest]

/-- C10 — when every product's summed revenue is nonnegative, the rows line
430 selects with the global filter `CUMULATIVE_PERCENTAGE <= 80` form exactly
the leading ranks whose cumulative percentage is ≤ 80, so the reported count
equals the number of such leading ranks. -/
theorem products_80_is_rank_cutoff (rows : List SalesRow)
    (hpos : ∀ p ∈ groupbySum (·.productName) rows, 0 ≤ p.2) :
    products_80 rows =
      (pareto_products rows).takeWhile (fun pr => decide (pr.cumulativePercentage ≤ 80)) ∧
    (products_80 rows).length =
      ((pareto_products rows).takeWhile
        (fun pr => decide (pr.cumulativePercentage ≤ 80))).length := by
  have hpair : (pareto_products rows).Pairwise
      fun a b => a.cumulativePercentage ≤ b.cumulativePercentage :=
    List.pairwise_map.mp (pareto_pcts_pairwise rows hpos)
  have heq := filter_le80_eq_takeWhile hpair
  exact ⟨heq, by rw [products_80, heq]⟩

theorem products_80_is_rank_cutoff_witness :
    products_80 c1Rows =
      (pareto_products c1Rows).takeWhile (fun pr => decide (pr.cumulativePercentage ≤ 80)) ∧
    (products_80 c1Rows).length =
      ((pareto_products c1Rows).takeWhile
        (fun pr => decide (pr.cumulativePercentage ≤ 80))).length :=
  products_80_is_rank_cutoff c1Rows
    (by
      simp +decide [c1Rows, mkRow, groupbySum, sortedKeys, uniqueFirst, rowsWithKey,
        total_revenue, List.insertionSort, List.orderedInsert, List.filter_cons]
      norm_num)

end SalesAnalysis
